import Mathlib

/-
  Verification of the LLGL rendering layer (wirx6/LLGL) against its
  natural-language specification.

  Shallow embedding of the relevant source files:
  - sources/Renderer/Direct3D11/D3D11RenderSystem_Textures.cpp
  - sources/Renderer/Direct3D11/D3D11ResourceFlags.cpp
  - sources/Renderer/Direct3D12/D3D12RenderSystem.cpp
  - sources/Renderer/OpenGL/Platform/Win32/Win32GLContext.cpp

  Machine integers are modelled as Nat/Int; native API calls (D3D, WGL) are
  modelled as boolean outcome parameters at the interface boundary.
-/

/-- Texture kinds of the backend-neutral descriptor (LLGL TextureType). -/
inductive TextureType where
  | texture1D
  | texture2D
  | texture3D
  | textureCube
  | texture1DArray
  | texture2DArray
  | textureCubeArray
  deriving DecidableEq

/-- Backend-neutral bind flags, one Bool per bit of the LLGL BindFlags bitset
(spec section 6 lists the members; the numeric bit values are immaterial). -/
structure BindFlags where
  vertexBuffer : Bool := false
  indexBuffer : Bool := false
  constantBuffer : Bool := false
  streamOutputBuffer : Bool := false
  sampleBuffer : Bool := false
  rwStorageBuffer : Bool := false
  colorAttachment : Bool := false
  depthStencilAttachment : Bool := false
  indirectBuffer : Bool := false
  deriving DecidableEq

/-- Backend-neutral CPU access flags (LLGL CPUAccessFlags: Read, Write). -/
structure CPUAccessFlags where
  read : Bool := false
  write : Bool := false
  deriving DecidableEq

/-- Backend-neutral misc flags (LLGL MiscFlags: DynamicUsage). -/
structure MiscFlags where
  dynamicUsage : Bool := false
  deriving DecidableEq

/-- View of the 1D sub-descriptor: width, layers. -/
structure Texture1DViewDesc where
  width : Nat
  layers : Nat
  deriving DecidableEq

/-- View of the 2D sub-descriptor: width, height, layers. -/
structure Texture2DViewDesc where
  width : Nat
  height : Nat
  layers : Nat
  deriving DecidableEq

/-- View of the 3D sub-descriptor: width, height, depth. -/
structure Texture3DViewDesc where
  width : Nat
  height : Nat
  depth : Nat
  deriving DecidableEq

/-- View of the cube sub-descriptor: width, height, layers. -/
structure TextureCubeViewDesc where
  width : Nat
  height : Nat
  layers : Nat
  deriving DecidableEq

/-- Modelled from the spec: the LLGL TextureDescriptor header is not under
src. Per spec section 3 it is a backend-neutral descriptor whose per-kind
sub-descriptors (texture1DDesc, texture2DDesc, texture3DDesc,
textureCubeDesc) occupy the same storage (a C union). The union is modelled
as three shared slots: slot0 holds width for every kind; slot1 holds the 1D
layers, otherwise height; slot2 holds the 2D and cube layers, and depth for
3D. The flat fields mipLevels, bindFlags, cpuAccessFlags, miscFlags carry
the mip policy and flag sets used by the flag-translation functions. -/
structure TextureDescriptor where
  type : TextureType
  format : Nat := 0
  slot0 : Nat := 0
  slot1 : Nat := 0
  slot2 : Nat := 0
  mipLevels : Nat := 0
  bindFlags : BindFlags := {}
  cpuAccessFlags : CPUAccessFlags := {}
  miscFlags : MiscFlags := {}
  deriving DecidableEq

/-- Union view texture1DDesc of the descriptor. -/
def TextureDescriptor.texture1DDesc (d : TextureDescriptor) : Texture1DViewDesc :=
  ⟨d.slot0, d.slot1⟩

/-- Union view texture2DDesc of the descriptor. -/
def TextureDescriptor.texture2DDesc (d : TextureDescriptor) : Texture2DViewDesc :=
  ⟨d.slot0, d.slot1, d.slot2⟩

/-- Union view texture3DDesc of the descriptor. -/
def TextureDescriptor.texture3DDesc (d : TextureDescriptor) : Texture3DViewDesc :=
  ⟨d.slot0, d.slot1, d.slot2⟩

/-- Union view textureCubeDesc of the descriptor. -/
def TextureDescriptor.textureCubeDesc (d : TextureDescriptor) : TextureCubeViewDesc :=
  ⟨d.slot0, d.slot1, d.slot2⟩

/-- Native D3D11_USAGE values. -/
inductive D3D11Usage where
  | defaultUsage
  | immutable
  | dynamic
  | staging
  deriving DecidableEq

/-- Native D3D11_BIND_FLAG set, one Bool per distinct native bit. -/
structure D3D11BindFlags where
  vertexBuffer : Bool := false
  indexBuffer : Bool := false
  constantBuffer : Bool := false
  streamOutput : Bool := false
  shaderResource : Bool := false
  unorderedAccess : Bool := false
  renderTarget : Bool := false
  depthStencil : Bool := false
  deriving DecidableEq

/-- Native D3D11_RESOURCE_MISC_FLAG set (texture-relevant bits). -/
structure D3D11MiscFlags where
  generateMips : Bool := false
  textureCube : Bool := false
  deriving DecidableEq

/-- Native D3D11_TEXTURE1D_DESC as filled by BuildGenericTexture1D. -/
structure D3D11Texture1DDesc where
  width : Nat
  mipLevels : Nat
  arraySize : Nat
  format : Nat
  usage : D3D11Usage
  bindFlags : D3D11BindFlags
  cpuAccessFlags : Nat
  miscFlags : D3D11MiscFlags
  deriving DecidableEq

/-- Native D3D11_TEXTURE2D_DESC as filled by BuildGenericTexture2D. -/
structure D3D11Texture2DDesc where
  width : Nat
  height : Nat
  mipLevels : Nat
  arraySize : Nat
  format : Nat
  usage : D3D11Usage
  bindFlags : D3D11BindFlags
  cpuAccessFlags : Nat
  miscFlags : D3D11MiscFlags
  deriving DecidableEq

/-- Native D3D11_TEXTURE3D_DESC as filled by BuildGenericTexture3D. -/
structure D3D11Texture3DDesc where
  width : Nat
  height : Nat
  depth : Nat
  mipLevels : Nat
  format : Nat
  usage : D3D11Usage
  bindFlags : D3D11BindFlags
  cpuAccessFlags : Nat
  miscFlags : D3D11MiscFlags
  deriving DecidableEq

/-- Hardware resource of a created D3D11 texture (tex1D, tex2D or tex3D). -/
inductive D3D11HardwareTexture where
  | tex1D (desc : D3D11Texture1DDesc)
  | tex2D (desc : D3D11Texture2DDesc)
  | tex3D (desc : D3D11Texture3DDesc)
  deriving DecidableEq

/-- A created D3D11 texture: the stored LLGL type tag plus the native
resource description (GetDesc on the created resource returns it). -/
structure D3D11Texture where
  type : TextureType
  hw : D3D11HardwareTexture
  deriving DecidableEq

/-- BuildGenericTexture1D: fills the native 1D descriptor from the modified
descriptor. MipLevels is set to the literal 0, ArraySize to
texture1DDesc.layers, BindFlags to SHADER_RESOURCE plus RENDER_TARGET. -/
def BuildGenericTexture1D (descD3D : TextureDescriptor)
    (cpuAccessFlags : Nat) (miscFlags : D3D11MiscFlags) : D3D11Texture1DDesc :=
  { width := descD3D.texture1DDesc.width
    mipLevels := 0
    arraySize := descD3D.texture1DDesc.layers
    format := descD3D.format
    usage := D3D11Usage.defaultUsage
    bindFlags := { shaderResource := true, renderTarget := true }
    cpuAccessFlags := cpuAccessFlags
    miscFlags := miscFlags }

/-- BuildGenericTexture2D: fills the native 2D descriptor; ArraySize is
texture2DDesc.layers read through the union. -/
def BuildGenericTexture2D (descD3D : TextureDescriptor)
    (cpuAccessFlags : Nat) (miscFlags : D3D11MiscFlags) : D3D11Texture2DDesc :=
  { width := descD3D.texture2DDesc.width
    height := descD3D.texture2DDesc.height
    mipLevels := 0
    arraySize := descD3D.texture2DDesc.layers
    format := descD3D.format
    usage := D3D11Usage.defaultUsage
    bindFlags := { shaderResource := true, renderTarget := true }
    cpuAccessFlags := cpuAccessFlags
    miscFlags := miscFlags }

/-- BuildGenericTexture3D: fills the native 3D descriptor (no ArraySize). -/
def BuildGenericTexture3D (descD3D : TextureDescriptor)
    (cpuAccessFlags : Nat) (miscFlags : D3D11MiscFlags) : D3D11Texture3DDesc :=
  { width := descD3D.texture3DDesc.width
    height := descD3D.texture3DDesc.height
    depth := descD3D.texture3DDesc.depth
    mipLevels := 0
    format := descD3D.format
    usage := D3D11Usage.defaultUsage
    bindFlags := { shaderResource := true, renderTarget := true }
    cpuAccessFlags := cpuAccessFlags
    miscFlags := miscFlags }

/-- CreateTexture of D3D11RenderSystem: first the switch that modifies the
number of layers through the union view of the kind (plain 1D and 2D get 1,
cube gets 6, cube-array gets layers times 6, other kinds unchanged), then
the switch that builds the generic texture, passing GENERATE_MIPS and, for
cube kinds, additionally TEXTURECUBE as misc flags and 0 as CPU access.
Every TextureType constructor is covered, so the default throw branch of
the source is unreachable and the function is total. -/
def CreateTexture (textureDesc : TextureDescriptor) : D3D11Texture :=
  let descD3D : TextureDescriptor :=
    match textureDesc.type with
    | TextureType.texture1D => { textureDesc with slot1 := 1 }
    | TextureType.texture2D => { textureDesc with slot2 := 1 }
    | TextureType.textureCube => { textureDesc with slot2 := 6 }
    | TextureType.textureCubeArray => { textureDesc with slot2 := textureDesc.slot2 * 6 }
    | _ => textureDesc
  match descD3D.type with
  | TextureType.texture1D | TextureType.texture1DArray =>
      ⟨textureDesc.type,
        D3D11HardwareTexture.tex1D (BuildGenericTexture1D descD3D 0 { generateMips := true })⟩
  | TextureType.texture2D | TextureType.texture2DArray =>
      ⟨textureDesc.type,
        D3D11HardwareTexture.tex2D (BuildGenericTexture2D descD3D 0 { generateMips := true })⟩
  | TextureType.texture3D =>
      ⟨textureDesc.type,
        D3D11HardwareTexture.tex3D (BuildGenericTexture3D descD3D 0 { generateMips := true })⟩
  | TextureType.textureCube | TextureType.textureCubeArray =>
      ⟨textureDesc.type,
        D3D11HardwareTexture.tex2D
          (BuildGenericTexture2D descD3D 0 { generateMips := true, textureCube := true })⟩

/-- Effective layer count handed to the native creation call: the ArraySize
field of the built native descriptor (absent for 3D textures). -/
def D3D11Texture.arraySize? : D3D11Texture → Option Nat
  | ⟨_, D3D11HardwareTexture.tex1D d⟩ => some d.arraySize
  | ⟨_, D3D11HardwareTexture.tex2D d⟩ => some d.arraySize
  | ⟨_, D3D11HardwareTexture.tex3D _⟩ => none

/-- QueryTextureDescriptor of D3D11RenderSystem: reads the native resource
description back into a backend-neutral descriptor. In the 2D case the
ArraySize is written to texture2DDesc.layers and afterwards, for cube
kinds, textureCubeDesc.layers (the same union slot) is divided by 6. -/
def QueryTextureDescriptor (texture : D3D11Texture) : TextureDescriptor :=
  let texDesc : TextureDescriptor := { type := texture.type }
  match texture.hw with
  | D3D11HardwareTexture.tex1D desc =>
      { texDesc with format := desc.format, slot0 := desc.width, slot1 := desc.arraySize }
  | D3D11HardwareTexture.tex2D desc =>
      let texDesc := { texDesc with
                       format := desc.format
                       slot0 := desc.width
                       slot1 := desc.height
                       slot2 := desc.arraySize }
      if texDesc.type = TextureType.textureCube ∨
          texDesc.type = TextureType.textureCubeArray then
        { texDesc with slot2 := texDesc.slot2 / 6 }
      else
        texDesc
  | D3D11HardwareTexture.tex3D desc =>
      { texDesc with
        format := desc.format
        slot0 := desc.width
        slot1 := desc.height
        slot2 := desc.depth }

/-- Buffer descriptor (flag-relevant fields of LLGL BufferDescriptor). -/
structure BufferDescriptor where
  size : Nat := 0
  bindFlags : BindFlags := {}
  cpuAccessFlags : CPUAccessFlags := {}
  miscFlags : MiscFlags := {}
  deriving DecidableEq

/-- DXGetBufferBindFlags of D3D11ResourceFlags.cpp: starts from the empty
native set and ORs in one distinct native bit per set neutral bit. -/
def DXGetBufferBindFlags (bindFlags : BindFlags) : D3D11BindFlags :=
  let flagsD3D : D3D11BindFlags := {}
  let flagsD3D := if bindFlags.vertexBuffer then { flagsD3D with vertexBuffer := true } else flagsD3D
  let flagsD3D := if bindFlags.indexBuffer then { flagsD3D with indexBuffer := true } else flagsD3D
  let flagsD3D := if bindFlags.constantBuffer then { flagsD3D with constantBuffer := true } else flagsD3D
  let flagsD3D := if bindFlags.streamOutputBuffer then { flagsD3D with streamOutput := true } else flagsD3D
  let flagsD3D := if bindFlags.sampleBuffer then { flagsD3D with shaderResource := true } else flagsD3D
  let flagsD3D := if bindFlags.rwStorageBuffer then { flagsD3D with unorderedAccess := true } else flagsD3D
  flagsD3D

/-- Modelled from the spec: IsMipMappedTexture (LLGL TextureFlags, not under
src). Per spec section 4.2 the normalizer derives whether a resource is
mip-mapped from the mip policy: requesting 0 levels signals an automatic
full chain, and more than one level is an explicit chain; exactly one level
means no mip chain. -/
def IsMipMappedTexture (desc : TextureDescriptor) : Bool :=
  desc.mipLevels == 0 || desc.mipLevels > 1

/-- Modelled from the spec: IsCubeTexture (LLGL TextureFlags, not under
src) holds for the cube and cube-array kinds. -/
def IsCubeTexture (type : TextureType) : Bool :=
  type == TextureType.textureCube || type == TextureType.textureCubeArray

/-- DXGetTextureMiscFlags of D3D11ResourceFlags.cpp: GENERATE_MIPS is ORed
in when the texture is mip-mapped and the DepthStencilAttachment bind flag
is absent; TEXTURECUBE is ORed in for cube kinds. -/
def DXGetTextureMiscFlags (desc : TextureDescriptor) : D3D11MiscFlags :=
  let flagsD3D : D3D11MiscFlags := {}
  let flagsD3D :=
    if IsMipMappedTexture desc && !desc.bindFlags.depthStencilAttachment then
      { flagsD3D with generateMips := true }
    else flagsD3D
  let flagsD3D :=
    if IsCubeTexture desc.type then { flagsD3D with textureCube := true } else flagsD3D
  flagsD3D

/-- DXGetCPUAccessBufferUsage of D3D11ResourceFlags.cpp: CPU read access
selects STAGING, else CPU write access selects DYNAMIC, else DEFAULT. -/
def DXGetCPUAccessBufferUsage (desc : BufferDescriptor) : D3D11Usage :=
  if desc.cpuAccessFlags.read then D3D11Usage.staging
  else if desc.cpuAccessFlags.write then D3D11Usage.dynamic
  else D3D11Usage.defaultUsage

/-- DXGetTextureUsage of D3D11ResourceFlags.cpp: same selection as the
buffer variant, over the texture descriptor. -/
def DXGetTextureUsage (desc : TextureDescriptor) : D3D11Usage :=
  if desc.cpuAccessFlags.read then D3D11Usage.staging
  else if desc.cpuAccessFlags.write then D3D11Usage.dynamic
  else D3D11Usage.defaultUsage

/-- Modelled from the spec: the native runtime resolves a MipLevels value
of 0 on the created texture to the full chain of length
floor(log2(largest dimension)) + 1 (spec sections 4.2 and 9); an explicit
nonzero value is kept. Nat.log2 is the floor of the dyadic logarithm. -/
def d3dResolvedMipLevels (largestDim mipLevels : Nat) : Nat :=
  if mipLevels = 0 then Nat.log2 largestDim + 1 else mipLevels

/-- Effective mip-chain length of a created texture: the resolved MipLevels
over the largest spatial dimension of the native resource. -/
def D3D11Texture.effectiveMipLevels : D3D11Texture → Nat
  | ⟨_, D3D11HardwareTexture.tex1D d⟩ => d3dResolvedMipLevels d.width d.mipLevels
  | ⟨_, D3D11HardwareTexture.tex2D d⟩ => d3dResolvedMipLevels (max d.width d.height) d.mipLevels
  | ⟨_, D3D11HardwareTexture.tex3D d⟩ =>
      d3dResolvedMipLevels (max d.width (max d.height d.depth)) d.mipLevels

/-- Width named by the claim formula: every union view stores it in slot0. -/
def TextureDescriptor.dimWidth (d : TextureDescriptor) : Nat := d.slot0

/-- Height named by the claim formula: kinds without a height use 1. -/
def TextureDescriptor.dimHeight (d : TextureDescriptor) : Nat :=
  match d.type with
  | TextureType.texture1D => 1
  | TextureType.texture1DArray => 1
  | _ => d.slot1

/-- Depth named by the claim formula: only the 3D kind has one, others use 1. -/
def TextureDescriptor.dimDepth (d : TextureDescriptor) : Nat :=
  match d.type with
  | TextureType.texture3D => d.texture3DDesc.depth
  | _ => 1

/-- Sub-texture region descriptor for WriteTexture. Modelled from the spec:
the LLGL SubTextureDescriptor header is not under src; per spec section 4.2
it carries per texture kind an offset and extent tuple (the per-kind union
views are flattened here because each WriteTexture branch reads only the
fields of its own kind). Unsigned fields are cast to int by the source, so
all fields are Int. -/
structure SubTextureDescriptor where
  mipLevel : Int := 0
  x : Int := 0
  y : Int := 0
  z : Int := 0
  layerOffset : Int := 0
  cubeFaceOffset : Int := 0
  width : Int := 0
  height : Int := 0
  depth : Int := 0
  layers : Int := 0
  cubeFaces : Int := 0
  deriving DecidableEq

/-- Native CD3D11_BOX: left, top, front to right, bottom, back. -/
structure D3D11Box where
  left : Int
  top : Int
  front : Int
  right : Int
  bottom : Int
  back : Int
  deriving DecidableEq

/-- One generic subresource update call: mip level, layer and the box. -/
structure UpdateCall where
  mipLevel : Int
  layer : Int
  box : D3D11Box
  deriving DecidableEq

/-- UpdateGenericTexture of D3D11RenderSystem: builds the CD3D11_BOX from
position to position plus size and performs the single generic update. -/
def UpdateGenericTexture (mipLevel : Int) (layer : Int)
    (position : Int × Int × Int) (size : Int × Int × Int) : UpdateCall :=
  { mipLevel := mipLevel
    layer := layer
    box :=
      { left := position.1
        top := position.2.1
        front := position.2.2
        right := position.1 + size.1
        bottom := position.2.1 + size.2.1
        back := position.2.2 + size.2.2 } }

/-- WriteTexture of D3D11RenderSystem: determines the update region per
texture kind (position and size start zero-initialized as Gs Vector3i) and
hands it to the single generic update with layer 0. -/
def WriteTexture (type : TextureType) (s : SubTextureDescriptor) : UpdateCall :=
  let positionAndSize : (Int × Int × Int) × (Int × Int × Int) :=
    match type with
    | TextureType.texture1D => ((s.x, 0, 0), (s.width, 1, 1))
    | TextureType.texture2D => ((s.x, s.y, 0), (s.width, s.height, 1))
    | TextureType.texture3D => ((s.x, s.y, s.z), (s.width, s.height, s.depth))
    | TextureType.textureCube => ((s.x, s.y, s.cubeFaceOffset), (s.width, s.height, 1))
    | TextureType.texture1DArray => ((s.x, s.layerOffset, 0), (s.width, s.layers, 1))
    | TextureType.texture2DArray => ((s.x, s.y, s.layerOffset), (s.width, s.height, s.layers))
    | TextureType.textureCubeArray =>
        ((s.x, s.y, s.layerOffset * 6 + s.cubeFaceOffset), (s.width, s.height, s.cubeFaces))
  UpdateGenericTexture s.mipLevel 0 positionAndSize.1 positionAndSize.2

/-- Ordered D3D feature levels, highest capability first, exactly the list
returned by GetFeatureLevels in D3D12RenderSystem.cpp. -/
inductive D3DFeatureLevel where
  | level12_1
  | level12_0
  | level11_1
  | level11_0
  | level10_1
  | level10_0
  | level9_3
  | level9_2
  | level9_1
  deriving DecidableEq

/-- GetFeatureLevels: the ordered candidate list, highest first. -/
def GetFeatureLevels : List D3DFeatureLevel :=
  [ D3DFeatureLevel.level12_1
  , D3DFeatureLevel.level12_0
  , D3DFeatureLevel.level11_1
  , D3DFeatureLevel.level11_0
  , D3DFeatureLevel.level10_1
  , D3DFeatureLevel.level10_0
  , D3DFeatureLevel.level9_3
  , D3DFeatureLevel.level9_2
  , D3DFeatureLevel.level9_1 ]

/-- Adapter used for device creation: the null default adapter (hardware)
or the WARP adapter enumerated as the software fallback. -/
inductive DXAdapterKind where
  | hardware
  | software
  deriving DecidableEq

/-- A successfully created D3D12 device: the recorded feature level
(featureLevel_ member) and the adapter it was created on. -/
structure D3D12DeviceState where
  featureLevel : D3DFeatureLevel
  adapter : DXAdapterKind
  deriving DecidableEq

/-- Inner CreateDevice overload of D3D12RenderSystem: walks the level list
in order, the first level for which the native D3D12CreateDevice call
succeeds is recorded and wins; returns none when every level fails. The
native call outcome is the boolean parameter ok. -/
def CreateDeviceWith (ok : D3DFeatureLevel → Bool) : List D3DFeatureLevel → Option D3DFeatureLevel
  | [] => none
  | level :: rest => if ok level then some level else CreateDeviceWith ok rest

/-- Outer CreateDevice of D3D12RenderSystem: try the hardware adapter over
the whole ordered list; only if that fails, enumerate the WARP software
adapter and retry the same list; if that also fails, throw the fatal
device-creation error (DXThrowIfFailed), returning no device. -/
def CreateDevice (hwOk swOk : D3DFeatureLevel → Bool) : Except String D3D12DeviceState :=
  match CreateDeviceWith hwOk GetFeatureLevels with
  | some level => Except.ok ⟨level, DXAdapterKind.hardware⟩
  | none =>
      match CreateDeviceWith swOk GetFeatureLevels with
      | some level => Except.ok ⟨level, DXAdapterKind.software⟩
      | none => Except.error "failed to create D3D12 device"

/-- Multi-sampling part of the render context descriptor. -/
structure MultiSamplingDescriptor where
  enabled : Bool := false
  samples : Nat := 0
  deriving DecidableEq

/-- OpenGL profile part of the render context descriptor. -/
structure ProfileOpenGLDescriptor where
  extProfile : Bool := false
  coreProfile : Bool := false
  deriving DecidableEq

/-- Render context descriptor fields used by Win32GLContext. -/
structure RenderContextDescriptor where
  multiSampling : MultiSamplingDescriptor := {}
  profileOpenGL : ProfileOpenGLDescriptor := {}
  deriving DecidableEq

/-- Outcomes of the native WGL calls, one boolean per call at the interface
boundary (the probe of a sample count is a function of the count). -/
structure WGLEnv where
  stdCtxOk : Bool
  makeCurrentOk : Bool
  pixelFormatProcsOk : Bool
  sampleCountOk : Nat → Bool
  createCtxProcsOk : Bool
  extCtxOk : Bool
  shareOk : Bool

/-- Non-fatal diagnostics printed by Win32GLContext to the log. -/
inductive GLDiagnostic where
  | aaNotSupported
  | aaReduced (requested reduced : Nat)
  | aaRecreateFailed
  | extProfileFailed
  | extProfileSelectFailed
  deriving DecidableEq

/-- Fatal errors thrown by Win32GLContext CreateContext. -/
inductive GLContextError where
  | stdContextFailed
  | contextFailed
  | activateFailed
  | shareFailed
  deriving DecidableEq

/-- The while loop of SetupAntiAliasing: probe the current sample count; on
probe failure decrement the count by one and retry; stop at the first
supported count or when the count reaches zero. The check inside the loop
that would return with error at count zero is unreachable because the loop
guard already requires a positive count, so the loop always ends by break
or by the guard turning false. -/
def negotiateSampleCount (supported : Nat → Bool) : Nat → Nat
  | 0 => 0
  | n + 1 => if supported (n + 1) then n + 1 else negotiateSampleCount supported n

/-- SetupAntiAliasing of Win32GLContext: fails (false) only when the pixel
format extension cannot be loaded. Otherwise it runs the step-down loop,
prints the reduction diagnostic when the count was lowered, and returns
true, with the descriptor carrying the negotiated count. Note that it
returns true even when the count reached zero. -/
def SetupAntiAliasing (env : WGLEnv) (desc : RenderContextDescriptor) :
    Bool × RenderContextDescriptor × List GLDiagnostic :=
  if !env.pixelFormatProcsOk then
    (false, desc, [])
  else
    let queriedMultiSamples := desc.multiSampling.samples
    let samples := negotiateSampleCount env.sampleCountOk queriedMultiSamples
    let desc := { desc with multiSampling := { desc.multiSampling with samples := samples } }
    let diags :=
      if samples < queriedMultiSamples then [GLDiagnostic.aaReduced queriedMultiSamples samples]
      else []
    (true, desc, diags)

/-- State of a Win32GLContext after CreateContext: the possibly mutated
descriptor, whether the hardware context is shared with the prior context,
whether the extended context is the active one, whether wglShareLists was
performed, and the printed diagnostics. -/
structure GLContextState where
  desc : RenderContextDescriptor
  hasSharedContext : Bool
  usedExtContext : Bool
  resourcesShared : Bool := false
  diags : List GLDiagnostic
  deriving DecidableEq

/-- CreateContext of Win32GLContext up to but excluding the resource
sharing step, parameterized by the native call outcomes, whether a prior
context was supplied and whether that context holds a valid hardware
context. CreateGLContext creates an own hardware context exactly when no
shared context with a valid handle was passed, and a raw context is only
kept when activating it succeeds. The anti-aliasing section runs only for
an own context with multi-sampling enabled: on SetupAntiAliasing success
the window is recreated and a fresh standard context created (failure of
that is only a diagnostic, leaving a null context for the later fatal
check); on SetupAntiAliasing failure a diagnostic is printed and
multi-sampling is disabled with zero samples. The extended profile section
runs only for an own context with extProfile requested: on success the
extended context replaces the standard one; on failure a diagnostic is
printed and the extProfile flag is cleared. A null context or a failed
activation is a fatal error. -/
def CreateContextCore (env : WGLEnv) (desc0 : RenderContextDescriptor)
    (sharedSupplied sharedCtxValid : Bool) : Except GLContextError GLContextState :=
  let ownCtx := !sharedSupplied || !sharedCtxValid
  let hasShared := !ownCtx
  let stdOk := (if ownCtx then env.stdCtxOk else true) && env.makeCurrentOk
  if !stdOk then
    Except.error GLContextError.stdContextFailed
  else
    let afterAA : RenderContextDescriptor × List GLDiagnostic × Bool :=
      if desc0.multiSampling.enabled && !hasShared then
        match SetupAntiAliasing env desc0 with
        | (true, desc1, diags) =>
            let newOk := env.stdCtxOk && env.makeCurrentOk
            (desc1, diags ++ (if newOk then [] else [GLDiagnostic.aaRecreateFailed]), newOk)
        | (false, desc1, diags) =>
            ({ desc1 with multiSampling := { enabled := false, samples := 0 } },
              diags ++ [GLDiagnostic.aaNotSupported], true)
      else
        (desc0, [], true)
    let desc1 := afterAA.1
    let aaDiags := afterAA.2.1
    let ctxOk := afterAA.2.2
    let afterExt : RenderContextDescriptor × List GLDiagnostic × Bool × Bool :=
      if desc1.profileOpenGL.extProfile && !hasShared then
        if env.createCtxProcsOk then
          let extOk := env.extCtxOk && env.makeCurrentOk
          if extOk then (desc1, [], true, true)
          else
            ({ desc1 with profileOpenGL := { desc1.profileOpenGL with extProfile := false } },
              [GLDiagnostic.extProfileFailed], false, ctxOk)
        else
          ({ desc1 with profileOpenGL := { desc1.profileOpenGL with extProfile := false } },
            [GLDiagnostic.extProfileSelectFailed], false, ctxOk)
      else
        (desc1, [], false, ctxOk)
    let desc2 := afterExt.1
    let extDiags := afterExt.2.1
    let usedExt := afterExt.2.2.1
    let ctxOk2 := afterExt.2.2.2
    if !ctxOk2 then
      Except.error GLContextError.contextFailed
    else if !env.makeCurrentOk then
      Except.error GLContextError.activateFailed
    else
      Except.ok
        { desc := desc2
          hasSharedContext := hasShared
          usedExtContext := usedExt
          resourcesShared := false
          diags := aaDiags ++ extDiags }

/-- Guard of the resource sharing step: a prior context was supplied, this
context owns its hardware context, and the extended profile is not in use
(reading the possibly already cleared flag). -/
def shareCondition (sharedSupplied : Bool) (st : GLContextState) : Bool :=
  sharedSupplied && !st.hasSharedContext && !st.desc.profileOpenGL.extProfile

/-- Full CreateContext of Win32GLContext: after the core, when the sharing
guard holds, wglShareLists is performed; its failure throws the fatal
sharing error, aborting creation. -/
def CreateContext (env : WGLEnv) (desc0 : RenderContextDescriptor)
    (sharedSupplied sharedCtxValid : Bool) : Except GLContextError GLContextState :=
  match CreateContextCore env desc0 sharedSupplied sharedCtxValid with
  | Except.error e => Except.error e
  | Except.ok st =>
      if shareCondition sharedSupplied st then
        if env.shareOk then Except.ok { st with resourcesShared := true }
        else Except.error GLContextError.shareFailed
      else
        Except.ok st

/-- Example cube-array descriptor with 5 array elements. -/
def exCubeArrayDesc : TextureDescriptor :=
  { type := TextureType.textureCubeArray, slot0 := 64, slot1 := 64, slot2 := 5 }

/-- Example plain 2D descriptor, 256 by 32, automatic mip generation. -/
def exC9Desc : TextureDescriptor :=
  { type := TextureType.texture2D, slot0 := 256, slot1 := 32, mipLevels := 0 }

/-- Example buffer descriptor requesting both CPU read and CPU write. -/
def exC4Buffer : BufferDescriptor :=
  { cpuAccessFlags := { read := true, write := true } }

/-- Example texture descriptor requesting both CPU read and CPU write. -/
def exC4Texture : TextureDescriptor :=
  { type := TextureType.texture2D, cpuAccessFlags := { read := true, write := true } }

/-- Example mip-mapped depth-stencil texture descriptor. -/
def exC6Desc : TextureDescriptor :=
  { type := TextureType.texture2D, mipLevels := 0
    bindFlags := { depthStencilAttachment := true } }

/-- Example 2D-array update region: layer offset 3, one layer, 256 by 256. -/
def exC7Sub : SubTextureDescriptor :=
  { x := 16, y := 32, layerOffset := 3, width := 256, height := 256, layers := 1 }

/-- WGL outcomes for the C8 witness: every native call succeeds except
wglShareLists. -/
def c8Env : WGLEnv :=
  { stdCtxOk := true, makeCurrentOk := true, pixelFormatProcsOk := true
    sampleCountOk := fun _ => false, createCtxProcsOk := true, extCtxOk := true
    shareOk := false }

/-- Core context state reached by c8Env with a supplied prior context whose
hardware handle is not valid (so an own hardware context is created). -/
def c8Pre : GLContextState :=
  { desc := {}, hasSharedContext := false, usedExtContext := false
    resourcesShared := false, diags := [] }

/-- WGL outcomes for the C2 failing input: everything succeeds but no
multi-sample count is supported by the pixel format probe. -/
def c2Env : WGLEnv :=
  { stdCtxOk := true, makeCurrentOk := true, pixelFormatProcsOk := true
    sampleCountOk := fun _ => false, createCtxProcsOk := true, extCtxOk := true
    shareOk := true }

/-- WGL outcomes where only a sample count of 4 is supported. -/
def c2EnvOnly4 : WGLEnv :=
  { stdCtxOk := true, makeCurrentOk := true, pixelFormatProcsOk := true
    sampleCountOk := fun n => n == 4, createCtxProcsOk := true, extCtxOk := true
    shareOk := true }

/-- Descriptor requesting anti-aliasing at 8 samples. -/
def c2Desc : RenderContextDescriptor :=
  { multiSampling := { enabled := true, samples := 8 } }

/-- Helper: the inner CreateDevice loop returns the first level of the list
accepted by the native call, i.e. it computes List.find?. -/
theorem createDeviceWith_eq_find (ok : D3DFeatureLevel → Bool)
    (ls : List D3DFeatureLevel) : CreateDeviceWith ok ls = ls.find? ok := by
  induction ls with
  | nil => rfl
  | cons a rest ih => cases h : ok a <;> simp [CreateDeviceWith, List.find?_cons, h, ih]

/-- C1: CreateTexture normalizes the effective layer count per kind before
the native creation call: plain 1D and 2D textures get exactly 1 layer, a
cube texture exactly 6 regardless of the supplied count, a cube-array with
caller count N exactly 6 times N, explicit array kinds keep the caller
count unchanged (and a 3D texture has no native array size at all). -/
theorem c1_create_texture_effective_layers (d : TextureDescriptor) :
    (CreateTexture d).arraySize? =
      match d.type with
      | TextureType.texture1D => some 1
      | TextureType.texture2D => some 1
      | TextureType.textureCube => some 6
      | TextureType.textureCubeArray => some (d.textureCubeDesc.layers * 6)
      | TextureType.texture1DArray => some d.texture1DDesc.layers
      | TextureType.texture2DArray => some d.texture2DDesc.layers
      | TextureType.texture3D => none := by
  rcases d with ⟨t, fmt, s0, s1, s2, mips, bf, cf, mf⟩
  cases t <;> rfl

/-- Witness for C1 at the concrete cube-array descriptor with 5 elements:
the native array size is 30. -/
theorem c1_witness_cube_array5 :
    (CreateTexture exCubeArrayDesc).arraySize? = some 30 :=
  (c1_create_texture_effective_layers exCubeArrayDesc).trans rfl

/-- C10: QueryTextureDescriptor inverts the creation-time layer
normalization by dividing the native array size by 6 for cube kinds: a
cube-array created from caller layer count n queries back to n, and a
plain cube queries back to one cube element. -/
theorem c10_query_cube_array_roundtrip (w h n fmt : Nat) :
    (QueryTextureDescriptor (CreateTexture
        { type := TextureType.textureCubeArray, format := fmt
          slot0 := w, slot1 := h, slot2 := n })).textureCubeDesc.layers = n
  ∧ (QueryTextureDescriptor (CreateTexture
        { type := TextureType.textureCube, format := fmt
          slot0 := w, slot1 := h, slot2 := n })).textureCubeDesc.layers = 1 := by
  constructor
  · show n * 6 / 6 = n
    omega
  · show (6 : Nat) / 6 = 1
    decide

/-- Witness for C10 at the concrete cube-array descriptor with 5 elements:
the queried layer count is 5 again. -/
theorem c10_witness_cube_array5 :
    (QueryTextureDescriptor (CreateTexture exCubeArrayDesc)).textureCubeDesc.layers = 5 :=
  (c10_query_cube_array_roundtrip 64 64 5 0).1

/-- C9: for every texture descriptor requesting automatic mip generation
(0 explicit mip levels) with positive dimensions, the effective mip-chain
length of the created texture is floor(log2(max(width, height, depth))) + 1,
where the dimensions are the ones of the kind and absent dimensions are 1. -/
theorem c9_auto_mip_chain_length (d : TextureDescriptor)
    (hAuto : d.mipLevels = 0) (hw : 1 ≤ d.slot0) (hh : 1 ≤ d.slot1) :
    (CreateTexture d).effectiveMipLevels =
      Nat.log2 (max d.dimWidth (max d.dimHeight d.dimDepth)) + 1 := by
  rcases d with ⟨t, fmt, s0, s1, s2, mips, bf, cf, mf⟩
  dsimp only at hAuto hw hh
  cases t <;>
    simp [CreateTexture, BuildGenericTexture1D, BuildGenericTexture2D,
      BuildGenericTexture3D, D3D11Texture.effectiveMipLevels, d3dResolvedMipLevels,
      TextureDescriptor.dimWidth, TextureDescriptor.dimHeight, TextureDescriptor.dimDepth,
      TextureDescriptor.texture1DDesc, TextureDescriptor.texture2DDesc,
      TextureDescriptor.texture3DDesc] <;>
    (congr 2; omega)

/-- Witness for C9 at the 256 by 32 plain 2D descriptor: the effective mip
chain has length 9. -/
theorem c9_witness_256x32 :
    (CreateTexture exC9Desc).effectiveMipLevels =
      Nat.log2 (max exC9Desc.dimWidth (max exC9Desc.dimHeight exC9Desc.dimDepth)) + 1 :=
  c9_auto_mip_chain_length exC9Desc rfl (by decide) (by decide)

/-- C4: the native usage-mode selection returns the staging mode whenever
CPU read access is requested (even together with write), else the dynamic
mode whenever CPU write access is requested, else the GPU-only default
mode, for buffers and textures alike. -/
theorem c4_usage_mode_selection (b : BufferDescriptor) (t : TextureDescriptor) :
    (b.cpuAccessFlags.read = true → DXGetCPUAccessBufferUsage b = D3D11Usage.staging)
  ∧ (b.cpuAccessFlags.read = false → b.cpuAccessFlags.write = true →
      DXGetCPUAccessBufferUsage b = D3D11Usage.dynamic)
  ∧ (b.cpuAccessFlags.read = false → b.cpuAccessFlags.write = false →
      DXGetCPUAccessBufferUsage b = D3D11Usage.defaultUsage)
  ∧ (t.cpuAccessFlags.read = true → DXGetTextureUsage t = D3D11Usage.staging)
  ∧ (t.cpuAccessFlags.read = false → t.cpuAccessFlags.write = true →
      DXGetTextureUsage t = D3D11Usage.dynamic)
  ∧ (t.cpuAccessFlags.read = false → t.cpuAccessFlags.write = false →
      DXGetTextureUsage t = D3D11Usage.defaultUsage) := by
  refine ⟨fun h1 => ?_, fun h1 h2 => ?_, fun h1 h2 => ?_,
          fun h1 => ?_, fun h1 h2 => ?_, fun h1 h2 => ?_⟩ <;>
    simp [DXGetCPUAccessBufferUsage, DXGetTextureUsage, *]

/-- Witness for C4: with both CPU read and CPU write requested, both usage
selectors pick the staging mode (read precedence). -/
theorem c4_witness_read_write :
    DXGetCPUAccessBufferUsage exC4Buffer = D3D11Usage.staging ∧
    DXGetTextureUsage exC4Texture = D3D11Usage.staging :=
  ⟨(c4_usage_mode_selection exC4Buffer exC4Texture).1 rfl,
   (c4_usage_mode_selection exC4Buffer exC4Texture).2.2.2.1 rfl⟩

/-- C5: the buffer bind-flag translation sets exactly one native bit per
set neutral bit and no native bit for any unset neutral bit; the input of
vertex plus constant buffer yields exactly those two native bits. -/
theorem c5_buffer_bind_flags_exact (bf : BindFlags) :
    (DXGetBufferBindFlags bf =
      { vertexBuffer := bf.vertexBuffer
        indexBuffer := bf.indexBuffer
        constantBuffer := bf.constantBuffer
        streamOutput := bf.streamOutputBuffer
        shaderResource := bf.sampleBuffer
        unorderedAccess := bf.rwStorageBuffer
        renderTarget := false
        depthStencil := false })
  ∧ DXGetBufferBindFlags { vertexBuffer := true, constantBuffer := true } =
      { vertexBuffer := true, constantBuffer := true } := by
  refine ⟨?_, by decide⟩
  rcases bf with ⟨v, i, c, so, sb, rs, ca, ds, ib⟩
  cases v <;> cases i <;> cases c <;> cases so <;> cases sb <;> cases rs <;> rfl

/-- Witness for C5 at the vertex plus constant input. -/
theorem c5_witness_vertex_constant :
    DXGetBufferBindFlags { vertexBuffer := true, constantBuffer := true } =
      { vertexBuffer := true, constantBuffer := true } :=
  (c5_buffer_bind_flags_exact {}).2

/-- C6: the native mip-generation misc flag is set if and only if the
texture is mip-mapped and its bind flags do not include the depth-stencil
attachment; for a mip-mapped depth-stencil texture the flag is silently
excluded (the translation is total, not an error). -/
theorem c6_generate_mips_flag (d : TextureDescriptor) :
    ((DXGetTextureMiscFlags d).generateMips = true ↔
      (IsMipMappedTexture d = true ∧ d.bindFlags.depthStencilAttachment = false))
  ∧ (IsMipMappedTexture d = true → d.bindFlags.depthStencilAttachment = true →
      (DXGetTextureMiscFlags d).generateMips = false) := by
  cases hm : IsMipMappedTexture d <;> cases hds : d.bindFlags.depthStencilAttachment <;>
    cases hc : IsCubeTexture d.type <;>
    simp [DXGetTextureMiscFlags, hm, hds, hc]

/-- Witness for C6 at a mip-mapped depth-stencil 2D texture: the flag is
excluded. -/
theorem c6_witness_depth_stencil_mipmapped :
    (DXGetTextureMiscFlags exC6Desc).generateMips = false :=
  (c6_generate_mips_flag exC6Desc).2 rfl rfl

/-- C7: WriteTexture translates the per-kind offset and extent fields into
one uniform 3D box consumed by the single generic update: for a 2D array
the layer offset is the z origin and the layer count the z extent, for a
cube array the z origin is layerOffset times 6 plus the face index; at
layer offset 3 with one layer over a 256 by 256 sub-rectangle the box is
(x, y, 3) to (x + 256, y + 256, 4). -/
theorem c7_write_texture_box (s : SubTextureDescriptor) :
    (WriteTexture TextureType.texture2DArray s =
      { mipLevel := s.mipLevel
        layer := 0
        box :=
          { left := s.x
            top := s.y
            front := s.layerOffset
            right := s.x + s.width
            bottom := s.y + s.height
            back := s.layerOffset + s.layers } })
  ∧ ((WriteTexture TextureType.textureCubeArray s).box.front =
      s.layerOffset * 6 + s.cubeFaceOffset)
  ∧ (WriteTexture TextureType.texture2DArray exC7Sub).box =
      { left := 16, top := 32, front := 3, right := 272, bottom := 288, back := 4 } := by
  refine ⟨rfl, rfl, by decide⟩

/-- Witness for C7 at the concrete 2D-array region of the scenario. -/
theorem c7_witness_array_layer3 :
    (WriteTexture TextureType.texture2DArray exC7Sub).box =
      { left := 16, top := 32, front := 3, right := 272, bottom := 288, back := 4 } :=
  (c7_write_texture_box exC7Sub).2.2

/-- C3: device creation tries the ordered feature-level list on the
hardware adapter and the first level that succeeds wins and is recorded;
only if every level fails on hardware is the same list retried on the
software adapter; if every level fails on both, creation throws the fatal
device-creation error and returns no device. -/
theorem c3_device_feature_level_fallback (hwOk swOk : D3DFeatureLevel → Bool) :
    (∀ level, GetFeatureLevels.find? hwOk = some level →
        CreateDevice hwOk swOk = Except.ok ⟨level, DXAdapterKind.hardware⟩)
  ∧ (GetFeatureLevels.find? hwOk = none →
      ∀ level, GetFeatureLevels.find? swOk = some level →
        CreateDevice hwOk swOk = Except.ok ⟨level, DXAdapterKind.software⟩)
  ∧ (CreateDevice hwOk swOk = Except.error "failed to create D3D12 device" ↔
      ((∀ level ∈ GetFeatureLevels, hwOk level = false) ∧
       (∀ level ∈ GetFeatureLevels, swOk level = false))) := by
  refine ⟨?_, ?_, ?_⟩
  · intro level h
    simp [CreateDevice, createDeviceWith_eq_find, h]
  · intro hn level h
    simp [CreateDevice, createDeviceWith_eq_find, hn, h]
  · constructor
    · intro h
      rcases hh : GetFeatureLevels.find? hwOk with _ | l
      · rcases hs : GetFeatureLevels.find? swOk with _ | l
        · constructor
          · intro x hx
            have hx2 := List.find?_eq_none.mp hh x hx
            simpa using hx2
          · intro x hx
            have hx2 := List.find?_eq_none.mp hs x hx
            simpa using hx2
        · exfalso
          simp [CreateDevice, createDeviceWith_eq_find, hh, hs] at h
      · exfalso
        simp [CreateDevice, createDeviceWith_eq_find, hh] at h
    · rintro ⟨h1, h2⟩
      have hh : GetFeatureLevels.find? hwOk = none :=
        List.find?_eq_none.mpr (fun x hx => by simp [h1 x hx])
      have hs : GetFeatureLevels.find? swOk = none :=
        List.find?_eq_none.mpr (fun x hx => by simp [h2 x hx])
      simp [CreateDevice, createDeviceWith_eq_find, hh, hs]

/-- Witness for C3: when every feature level fails on both adapters, the
fatal device-creation error is raised. -/
theorem c3_witness_all_levels_fail :
    CreateDevice (fun _ => false) (fun _ => false) =
      Except.error "failed to create D3D12 device" :=
  (c3_device_feature_level_fallback (fun _ => false) (fun _ => false)).2.2.mpr
    ⟨fun _ _ => rfl, fun _ _ => rfl⟩

/-- C8: explicit resource sharing is attempted exactly when a prior context
was supplied, the new context owns its hardware context, and the extended
profile is not in use; if the sharing call fails, context creation fails
fatally instead of continuing without sharing; if it succeeds or is not
attempted, creation completes. -/
theorem c8_resource_sharing_condition (env : WGLEnv) (desc0 : RenderContextDescriptor)
    (sharedSupplied sharedCtxValid : Bool) (st : GLContextState)
    (h : CreateContextCore env desc0 sharedSupplied sharedCtxValid = Except.ok st) :
    (shareCondition sharedSupplied st = true ↔
      (sharedSupplied = true ∧ st.hasSharedContext = false ∧
        st.desc.profileOpenGL.extProfile = false))
  ∧ (shareCondition sharedSupplied st = true → env.shareOk = false →
      CreateContext env desc0 sharedSupplied sharedCtxValid =
        Except.error GLContextError.shareFailed)
  ∧ (shareCondition sharedSupplied st = true → env.shareOk = true →
      CreateContext env desc0 sharedSupplied sharedCtxValid =
        Except.ok { st with resourcesShared := true })
  ∧ (shareCondition sharedSupplied st = false →
      CreateContext env desc0 sharedSupplied sharedCtxValid = Except.ok st) := by
  refine ⟨?_, ?_, ?_, ?_⟩
  · simp [shareCondition, and_assoc]
  · intro hc hs
    unfold CreateContext
    rw [h]
    simp [hc, hs]
  · intro hc hs
    unfold CreateContext
    rw [h]
    simp [hc, hs]
  · intro hc
    unfold CreateContext
    rw [h]
    simp [hc]

/-- Witness for C8: with a supplied prior context that has no valid
hardware handle, an own context, no extended profile and a failing
wglShareLists, the guard holds and creation aborts with the fatal sharing
error. -/
theorem c8_witness_share_failure :
    shareCondition true c8Pre = true ∧
    CreateContext c8Env {} true false = Except.error GLContextError.shareFailed :=
  ⟨rfl, (c8_resource_sharing_condition c8Env {} true false c8Pre rfl).2.1 rfl rfl⟩

/-- C2: evaluation at the failing input. With anti-aliasing requested at 8
samples and no sample count supported, the step-down loop reaches zero,
yet SetupAntiAliasing reports success with only the reduction diagnostic,
and CreateContext completes with multi-sampling still flagged enabled at
zero samples: the enabled flag is never cleared, contradicting the claim
(and the source comment that reaching the lowest count returns with
error). The third conjunct shows the intact stepping-down behaviour: with
only 4 samples supported, negotiation ends at 4 with a diagnostic. -/
theorem c2_zero_samples_keeps_enabled :
    (SetupAntiAliasing c2Env c2Desc =
      (true, { multiSampling := { enabled := true, samples := 0 } },
        [GLDiagnostic.aaReduced 8 0]))
  ∧ (CreateContext c2Env c2Desc false false =
      Except.ok
        { desc := { multiSampling := { enabled := true, samples := 0 } }
          hasSharedContext := false
          usedExtContext := false
          resourcesShared := false
          diags := [GLDiagnostic.aaReduced 8 0] })
  ∧ (SetupAntiAliasing c2EnvOnly4 c2Desc =
      (true, { multiSampling := { enabled := true, samples := 4 } },
        [GLDiagnostic.aaReduced 8 4])) := by
  exact ⟨rfl, rfl, rfl⟩
